import Mathlib

/-!
Shallow embedding of `src/public/renewable_cashflow_model.py`
(class `RenewableProjectModel`).

Conventions of the embedding:
* Monetary amounts and rates are `ℚ` (the Python floats, idealised to exact
  arithmetic; the float literals 0.10, 1e-6, 0.99 become 1/10, 1/1000000,
  99/100).
* Dates are month offsets from `model_start`: period index `i` (0-based)
  stands for the date `model_start + i` months, since the code builds the
  grid with `pd.date_range(start=model_start, periods=84, freq='MS')` and
  all phase boundaries are `model_start` plus a whole number of months.
  Thus `construction_start` is offset 12, `operations_start` offset 30,
  `operations_end` offset 90.  The pandas column `period` is `i + 1`.
* The dataframe columns become functions of the parameter record and the
  period index; `ℚ` division is total (`x / 0 = 0`), matching the code on
  every input on which the Python code does not raise.
-/

/-- Immutable project parameters, the arguments of
`RenewableProjectModel.__init__` (the model start date is dropped: with
month-offset dates every derived quantity is independent of it). -/
structure Params where
  capexTotal : ℚ
  contractedRevenueAnnual : ℚ
  merchantRevenueAnnual : ℚ
  opexAnnual : ℚ
  taxRate : ℚ
  targetDscr : ℚ
  debtTermYears : ℕ
  debtRate : ℚ
  maxGearing : ℚ
  terminalValueParam : Option ℚ
deriving DecidableEq, Repr

/-- Project phase tag; `Unset` models the initial empty-string phase of
`create_time_series` (never observed on the 84-period grid). -/
inductive Phase where
  | Development
  | Construction
  | Operations
  | Unset
deriving DecidableEq, Repr

/-- Number of monthly periods: `periods = 7 * 12` in `create_time_series`. -/
def numPeriods : ℕ := 7 * 12

/-- Month offset of `construction_start = model_start + 12 months`. -/
def constructionStartM : ℕ := 12

/-- Month offset of `operations_start = construction_start + 18 months`. -/
def operationsStartM : ℕ := constructionStartM + 18

/-- Month offset of `operations_end = operations_start + 5 years`. -/
def operationsEndM : ℕ := operationsStartM + 60

/-- Phase of period `i`, from the three date-mask assignments in
`create_time_series` (the masks are disjoint, so the nested `if` is exact). -/
def phase (i : ℕ) : Phase :=
  if i < constructionStartM then Phase.Development
  else if i < operationsStartM then Phase.Construction
  else if i < operationsEndM then Phase.Operations
  else Phase.Unset

/-- Number of construction periods: `construction_mask.sum()` in
`calculate_cashflows`. -/
def constructionMonths : ℕ :=
  ((Finset.range numPeriods).filter (fun i => phase i = Phase.Construction)).card

/-- Column `capex`: `capex_total / construction_months` on construction
periods, 0 elsewhere. -/
def capex (p : Params) (i : ℕ) : ℚ :=
  if phase i = Phase.Construction then p.capexTotal / (constructionMonths : ℚ) else 0

/-- Column `revenue`: `contracted_revenue_annual / 12` on operations periods. -/
def revenue (p : Params) (i : ℕ) : ℚ :=
  if phase i = Phase.Operations then p.contractedRevenueAnnual / 12 else 0

/-- Column `opex`: `opex_annual / 12` on operations periods. -/
def opexCol (p : Params) (i : ℕ) : ℚ :=
  if phase i = Phase.Operations then p.opexAnnual / 12 else 0

/-- Column `ebitda = revenue - opex`. -/
def ebitda (p : Params) (i : ℕ) : ℚ := revenue p i - opexCol p i

/-- Column `depreciation`: `(capex_total / 20) / 12` on every period whose
date is at or after `operations_start`. -/
def depreciation (p : Params) (i : ℕ) : ℚ :=
  if operationsStartM ≤ i then p.capexTotal / 20 / 12 else 0

/-- Column `ebit = ebitda - depreciation`. -/
def ebit (p : Params) (i : ℕ) : ℚ := ebitda p i - depreciation p i

/-- Column `tax`: `ebit * tax_rate` when `ebit > 0`, else 0. -/
def taxCol (p : Params) (i : ℕ) : ℚ :=
  if 0 < ebit p i then ebit p i * p.taxRate else 0

/-- Column `net_income = ebit - tax`. -/
def netIncome (p : Params) (i : ℕ) : ℚ := ebit p i - taxCol p i

/-- Column `operating_cashflow = net_income + depreciation`. -/
def operatingCashflow (p : Params) (i : ℕ) : ℚ := netIncome p i + depreciation p i

/-- Column `free_cashflow = operating_cashflow - capex`. -/
def freeCashflow (p : Params) (i : ℕ) : ℚ := operatingCashflow p i - capex p i

/-- Attribute `terminal_value`: the parameter if given, else
`capex_total * 0.10` (`__init__`). -/
def terminalValueAmt (p : Params) : ℚ :=
  p.terminalValueParam.getD (p.capexTotal * (1 / 10))

/-- Column `terminal_value`: the terminal value on the last period
(`df.iloc[-1]`), 0 elsewhere. -/
def terminalValueCol (p : Params) (i : ℕ) : ℚ :=
  if i = numPeriods - 1 then terminalValueAmt p else 0

/-! Debt sizing (`size_debt`). -/

/-- Sum of `operating_cashflow` over the operations periods
(`self.df[self.df['phase'] == 'Operations']['operating_cashflow'].sum()`). -/
def operationsCfSum (p : Params) : ℚ :=
  ∑ i ∈ (Finset.range numPeriods).filter (fun i => phase i = Phase.Operations),
    operatingCashflow p i

/-- Variable `annual_cf_average = operations_cf.sum() / 5`. -/
def annualCfAverage (p : Params) : ℚ := operationsCfSum p / 5

/-- Variable `max_annual_debt_service = annual_cf_average / target_dscr`. -/
def maxAnnualDebtService (p : Params) : ℚ := annualCfAverage p / p.targetDscr

/-- Variable `monthly_rate = debt_rate / 12`. -/
def monthlyRate (p : Params) : ℚ := p.debtRate / 12

/-- Variable `total_payments = debt_term_years * 12`. -/
def totalPayments (p : Params) : ℕ := p.debtTermYears * 12

/-- Variable `debt_capacity`: the annuity present value of the maximum
monthly debt service over `total_payments` months at `monthly_rate`, or the
undiscounted sum when the rate is not positive. -/
def debtCapacity (p : Params) : ℚ :=
  if 0 < monthlyRate p then
    (maxAnnualDebtService p / 12) *
      ((1 + monthlyRate p) ^ totalPayments p - 1) /
      (monthlyRate p * (1 + monthlyRate p) ^ totalPayments p)
  else
    (maxAnnualDebtService p / 12) * (totalPayments p : ℚ)

/-- Variable `max_debt_by_gearing = capex_total * max_gearing`. -/
def maxDebtByGearing (p : Params) : ℚ := p.capexTotal * p.maxGearing

/-- Attribute `debt_amount = min(debt_capacity, max_debt_by_gearing)`. -/
def debtAmount (p : Params) : ℚ := min (debtCapacity p) (maxDebtByGearing p)

/-- Attribute `annual_debt_service`: 12 times the level monthly payment on
`debt_amount` when both the amount and the monthly rate are positive,
else 0. -/
def annualDebtService (p : Params) : ℚ :=
  if 0 < debtAmount p ∧ 0 < monthlyRate p then
    12 * (debtAmount p * monthlyRate p * (1 + monthlyRate p) ^ totalPayments p /
      ((1 + monthlyRate p) ^ totalPayments p - 1))
  else 0

/-- Attribute `equity_amount = capex_total - debt_amount`. -/
def equityAmount (p : Params) : ℚ := p.capexTotal - debtAmount p

/-- The dict `debt_sizing_results` (field names follow the dict keys; the
three `_ratio` keys are rendered as `...OverCapex` and `gearingOverCapex`). -/
structure DebtSizingResults where
  debtAmount : ℚ
  equityAmount : ℚ
  annualDebtService : ℚ
  avgAnnualOperatingCf : ℚ
  actualDscr : Option ℚ
  debtOverCapex : ℚ
  equityOverCapex : ℚ
  gearingOverCapex : ℚ
deriving DecidableEq, Repr

/-- Builds `debt_sizing_results` from the sized quantities; `actual_dscr`
is `None` unless the annual debt service is positive. -/
def debtSizingResults (p : Params) : DebtSizingResults :=
  ⟨debtAmount p, equityAmount p, annualDebtService p, annualCfAverage p,
    if 0 < annualDebtService p then some (annualCfAverage p / annualDebtService p) else none,
    debtAmount p / p.capexTotal, equityAmount p / p.capexTotal,
    debtAmount p / p.capexTotal⟩

/-! Financing cashflows (`calculate_financing_cashflows`). -/

/-- Variable `total_construction_capex`: sum of `capex` over construction
periods. -/
def totalConstructionCapex (p : Params) : ℚ :=
  ∑ i ∈ (Finset.range numPeriods).filter (fun i => phase i = Phase.Construction),
    capex p i

/-- Column `debt_drawdown`: on construction periods, when the total
construction capex is positive, the debt amount times that period's share
of construction capex; 0 elsewhere. -/
def debtDrawdown (p : Params) (i : ℕ) : ℚ :=
  if phase i = Phase.Construction ∧ 0 < totalConstructionCapex p then
    debtAmount p * (capex p i / totalConstructionCapex p)
  else 0

/-- Column `equity_contribution`: the equity analogue of `debtDrawdown`. -/
def equityContribution (p : Params) (i : ℕ) : ℚ :=
  if phase i = Phase.Construction ∧ 0 < totalConstructionCapex p then
    equityAmount p * (capex p i / totalConstructionCapex p)
  else 0

/-- Variable `monthly_debt_service = annual_debt_service / 12` when positive,
else 0. -/
def monthlyDebtService (p : Params) : ℚ :=
  if 0 < annualDebtService p then annualDebtService p / 12 else 0

/-- Index of the first operations period
(`self.df[operations_mask].index[0]`; the sentinel branch models the `None`
case, never reached on this grid). -/
def firstOperationsIdx : ℕ :=
  ((List.range numPeriods).find? (fun i => phase i == Phase.Operations)).getD numPeriods

/-- Column `debt_service`: when debt exists, the level monthly service on
the periods from the first operations period for
`min(debt_term_years * 12, number of remaining periods)` months; 0
elsewhere and 0 everywhere when `debt_amount` is not positive. -/
def debtService (p : Params) (i : ℕ) : ℚ :=
  if 0 < debtAmount p then
    if firstOperationsIdx ≤ i ∧
        i < firstOperationsIdx + min (p.debtTermYears * 12) (numPeriods - firstOperationsIdx) then
      monthlyDebtService p
    else 0
  else 0

/-- Column `cashflow_after_financing = free_cashflow + debt_drawdown +
equity_contribution - debt_service + terminal_value`. -/
def cashflowAfterFinancing (p : Params) (i : ℕ) : ℚ :=
  freeCashflow p i + debtDrawdown p i + equityContribution p i - debtService p i +
    terminalValueCol p i

/-! Debt schedule (`calculate_debt_schedule`). -/

/-- One row of the debt schedule dataframe. -/
structure DebtRow where
  date : ℕ
  period : ℕ
  rowPhase : Phase
  beginningBalance : ℚ
  drawdown : ℚ
  interestPayment : ℚ
  principalPayment : ℚ
  totalPayment : ℚ
  endingBalance : ℚ
deriving DecidableEq, Repr

/-- Variable `monthly_payment` of `calculate_debt_schedule`. -/
def monthlyPaymentSched (p : Params) : ℚ :=
  if 0 < annualDebtService p then annualDebtService p / 12 else 0

/-- One iteration of the schedule loop: given the outstanding balance and
the `payment_start` flag before period `i`, produce the row for `i` and the
updated state.  Payments run once a period tagged Operations has been seen
and the post-drawdown balance is positive; principal is the installment
minus interest, floored at 0 and capped at the outstanding balance. -/
def debtScheduleStep (p : Params) (i : ℕ) (bal : ℚ) (ps : Bool) :
    DebtRow × ℚ × Bool :=
  let bal1 := bal + debtDrawdown p i
  let ps1 := ps || (phase i == Phase.Operations)
  if ps1 = true ∧ 0 < bal1 then
    let interest := bal1 * monthlyRate p
    let principal := min (max 0 (monthlyPaymentSched p - interest)) bal1
    (⟨i, i + 1, phase i, bal, debtDrawdown p i, interest, principal,
        interest + principal, bal1 - principal⟩,
      bal1 - principal, ps1)
  else
    (⟨i, i + 1, phase i, bal, debtDrawdown p i, 0, 0, 0, bal1⟩, bal1, ps1)

/-- The schedule loop over a list of period indices, threading the
outstanding balance and the `payment_start` flag. -/
def debtScheduleGo (p : Params) : List ℕ → ℚ → Bool → List DebtRow
  | [], _, _ => []
  | i :: rest, bal, ps =>
    let s := debtScheduleStep p i bal ps
    s.1 :: debtScheduleGo p rest s.2.1 s.2.2

/-- Index of the first construction period
(`self.df[self.df['phase'] == 'Construction'].index[0]`). -/
def constructionStartIdx : ℕ :=
  ((List.range numPeriods).find? (fun i => phase i == Phase.Construction)).getD numPeriods

/-- Attribute `debt_schedule`: empty when `debt_amount <= 0`, else the loop
over the dataframe rows from the first construction period to the end of
the timeline (`self.df.loc[construction_start_idx:]`), starting from zero
balance with payments not yet started. -/
def debtSchedule (p : Params) : List DebtRow :=
  if debtAmount p ≤ 0 then []
  else debtScheduleGo p ((List.range numPeriods).drop constructionStartIdx) 0 false

/-! Equity IRR (`calculate_equity_irr`, `calculate_irr`). -/

/-- Net present value `sum(cf / (1 + rate) ** i for i, cf in enumerate(cashflows))`. -/
def npv (cashflows : List ℚ) (rate : ℚ) : ℚ :=
  (cashflows.enum.map (fun ic => ic.2 / (1 + rate) ^ ic.1)).sum

/-- Derivative `sum(-i * cf / (1 + rate) ** (i + 1) for i, cf in enumerate(cashflows))`. -/
def npvDeriv (cashflows : List ℚ) (rate : ℚ) : ℚ :=
  (cashflows.enum.map (fun ic => -(ic.1 : ℚ) * ic.2 / (1 + rate) ^ (ic.1 + 1))).sum

/-- The solver tolerance, the default argument `tolerance=1e-6`. -/
def npvTolerance : ℚ := 1 / 1000000

/-- The per-iteration clamp `if rate < -0.99: rate = -0.99`. -/
def clampRate (r : ℚ) : ℚ := if r < -(99 / 100 : ℚ) then -(99 / 100) else r

/-- The Newton-Raphson loop of `calculate_irr`, with the remaining
iteration count as fuel.  Returning the rate requires `|npv| < tolerance`;
a derivative below tolerance breaks out, and exhausting the loop falls
through to `return rate if abs(npv) < tolerance else None`, whose `npv` is
the last computed one and failed the tolerance check, hence `none` on both
non-returning exits. -/
def irrGo (cashflows : List ℚ) : ℕ → ℚ → Option ℚ
  | 0, _ => none
  | n + 1, rate =>
    if |npv cashflows rate| < npvTolerance then some rate
    else if |npvDeriv cashflows rate| < npvTolerance then none
    else irrGo cashflows n
      (clampRate (rate - npv cashflows rate / npvDeriv cashflows rate))

/-- Function `calculate_irr` with its default arguments `guess=0.1`,
`tolerance=1e-6`, `max_iterations=100`: `None` on an empty or all-zero
sequence, `None` without both a strictly negative and a strictly positive
entry, else the Newton-Raphson loop. -/
def calculateIrr (cashflows : List ℚ) : Option ℚ :=
  if cashflows = [] ∨ ∀ cf ∈ cashflows, cf = 0 then none
  else if (∃ cf ∈ cashflows, cf < 0) ∧ (∃ cf ∈ cashflows, 0 < cf) then
    irrGo cashflows 100 (1 / 10)
  else none

/-- Per-period equity cashflow
`-equity_contribution + (free_cashflow + terminal_value - debt_service)`. -/
def equityCashflow (p : Params) (i : ℕ) : ℚ :=
  -equityContribution p i + (freeCashflow p i + terminalValueCol p i - debtService p i)

/-- The list `equity_cashflows` over the 84 periods. -/
def equityCashflows (p : Params) : List ℚ :=
  (List.range numPeriods).map (equityCashflow p)

/-- Attribute `equity_irr = calculate_irr(equity_cashflows)`. -/
def equityIrr (p : Params) : Option ℚ := calculateIrr (equityCashflows p)

/-- Variable `total_contributions`: sum of `equity_contribution`. -/
def totalContributions (p : Params) : ℚ :=
  ∑ i ∈ Finset.range numPeriods, equityContribution p i

/-- Variable `total_distributions`: sum of
`free_cashflow + terminal_value - debt_service`. -/
def totalDistributions (p : Params) : ℚ :=
  ∑ i ∈ Finset.range numPeriods,
    (freeCashflow p i + terminalValueCol p i - debtService p i)

/-- Attribute `equity_multiple`: distributions over contributions when the
contributions are positive, else 0. -/
def equityMultiple (p : Params) : ℚ :=
  if 0 < totalContributions p then totalDistributions p / totalContributions p else 0

/-- The dict `equity_analysis`. -/
structure EquityAnalysis where
  totalEquityContribution : ℚ
  totalEquityDistributions : ℚ
  equityMultiple : ℚ
  equityIrr : Option ℚ
  equityCashflows : List ℚ
deriving DecidableEq, Repr

/-- Builds `equity_analysis`. -/
def equityAnalysisOf (p : Params) : EquityAnalysis :=
  ⟨totalContributions p, totalDistributions p, equityMultiple p, equityIrr p,
    equityCashflows p⟩

/-! The full pipeline output (`__init__` runs the five passes in order and
leaves the table, the sizing dict, the schedule and the equity dict on the
instance). -/

/-- One fully populated row of `self.df` after all passes. -/
structure PeriodRecord where
  date : ℕ
  period : ℕ
  recPhase : Phase
  revenue : ℚ
  opexCol : ℚ
  capex : ℚ
  ebitda : ℚ
  depreciation : ℚ
  ebit : ℚ
  taxCol : ℚ
  netIncome : ℚ
  operatingCashflow : ℚ
  freeCashflow : ℚ
  debtDrawdown : ℚ
  equityContribution : ℚ
  debtService : ℚ
  cashflowAfterFinancing : ℚ
  terminalValueCol : ℚ
deriving DecidableEq, Repr

/-- Row `i` of the populated period table. -/
def periodRecord (p : Params) (i : ℕ) : PeriodRecord :=
  ⟨i, i + 1, phase i, revenue p i, opexCol p i, capex p i, ebitda p i,
    depreciation p i, ebit p i, taxCol p i, netIncome p i,
    operatingCashflow p i, freeCashflow p i, debtDrawdown p i,
    equityContribution p i, debtService p i, cashflowAfterFinancing p i,
    terminalValueCol p i⟩

/-- The four read-only structures the model exposes after construction. -/
structure ModelOutputs where
  periodTable : List PeriodRecord
  sizing : DebtSizingResults
  schedule : List DebtRow
  equity : EquityAnalysis
deriving DecidableEq, Repr

/-- The full pipeline: timeline, cashflows, debt sizing, financing,
schedule, equity IRR, assembled into the exposed structures. -/
def compute (p : Params) : ModelOutputs :=
  ⟨(List.range numPeriods).map (periodRecord p), debtSizingResults p,
    debtSchedule p, equityAnalysisOf p⟩

/-- Which sizing constraint produced the smaller debt amount.  Modelled
from the spec: the source stores no such datum; this is the notion "the
binding constraint (coverage vs. gearing) is whichever yields the smaller
amount" of spec section 4.3, used to compare the spec with the code. -/
inductive BindingConstraint where
  | coverage
  | gearing
deriving DecidableEq, Repr

/-- Modelled from the spec: the binding constraint of a parameter set,
coverage when the coverage-based capacity is the smaller (or tied) bound,
gearing otherwise. -/
def specBindingConstraint (p : Params) : BindingConstraint :=
  if debtCapacity p ≤ maxDebtByGearing p then BindingConstraint.coverage
  else BindingConstraint.gearing

/-- A concrete parameter set used by witnesses: zero debt rate and zero
tax keep every derived quantity a small rational.  Its coverage-based
capacity is 90 and its gearing cap 70, so the sized debt is 70. -/
def Pex : Params := ⟨100, 20, 0, 10, 0, 1, 10, 0, 7 / 10, some 0⟩

/-- A parameter set whose gearing cap (50) is below its coverage capacity
(90): the gearing constraint binds. -/
def P4a : Params := ⟨100, 20, 0, 10, 0, 1, 10, 0, 1 / 2, some 0⟩

/-- A parameter set whose coverage capacity (50) is below its gearing cap
(60): the coverage constraint binds; its sizing output coincides with
`P4a`'s. -/
def P4b : Params := ⟨100, 20, 0, 10, 0, 9 / 5, 10, 0, 3 / 5, some 0⟩

/-- A parameter set with a zero gearing cap, hence zero sized debt. -/
def P7 : Params := ⟨100, 20, 0, 10, 0, 1, 10, 0, 0, some 0⟩

set_option maxRecDepth 10000

/-! Helper lemmas. -/

/-- There are exactly 18 construction periods. -/
theorem constructionMonths_eq : constructionMonths = 18 := by decide

/-- The capex column, with the construction-period count evaluated. -/
theorem capex_eq (p : Params) (j : ℕ) :
    capex p j = if phase j = Phase.Construction then p.capexTotal / 18 else 0 := by
  rw [capex, constructionMonths_eq]
  norm_num

/-- A function constant on construction periods sums over them to 18 times
the constant. -/
theorem sum_filter_construction (f : ℕ → ℚ) (c : ℚ)
    (hf : ∀ j, phase j = Phase.Construction → f j = c) :
    (∑ j ∈ (Finset.range numPeriods).filter (fun j => phase j = Phase.Construction), f j)
      = 18 * c := by
  have hcard :
      ((Finset.range numPeriods).filter (fun j => phase j = Phase.Construction)).card = 18 := by
    decide
  rw [Finset.sum_congr rfl fun j hj => hf j (Finset.mem_filter.mp hj).2,
    Finset.sum_const, hcard, nsmul_eq_mul]
  norm_num

/-- A function constant on construction periods and zero elsewhere sums
over the whole timeline to 18 times the constant. -/
theorem sum_range_construction (f : ℕ → ℚ) (c : ℚ)
    (hf : ∀ j, phase j = Phase.Construction → f j = c)
    (h0 : ∀ j, phase j ≠ Phase.Construction → f j = 0) :
    (∑ j ∈ Finset.range numPeriods, f j) = 18 * c := by
  rw [← Finset.sum_filter_add_sum_filter_not (Finset.range numPeriods)
    (fun j => phase j = Phase.Construction) f]
  have h2 :
      (∑ j ∈ (Finset.range numPeriods).filter (fun j => ¬phase j = Phase.Construction), f j)
        = 0 :=
    Finset.sum_eq_zero fun j hj => h0 j (Finset.mem_filter.mp hj).2
  rw [sum_filter_construction f c hf, h2, add_zero]

/-- The total construction capex of `calculate_financing_cashflows` is the
whole capital cost. -/
theorem totalConstructionCapex_eq (p : Params) :
    totalConstructionCapex p = p.capexTotal := by
  rw [totalConstructionCapex,
    sum_filter_construction (capex p) (p.capexTotal / 18)
      fun j hj => by rw [capex_eq, if_pos hj]]
  ring

/-! Claim C1: the timeline. -/

/-- C1 counterexample: the claim says 60 periods are tagged Operations,
but on the 84-period grid the Operations window [30, 90) is cut off at
period 83, leaving only 54 Operations periods. -/
theorem c1_counterexample :
    ((Finset.range numPeriods).filter (fun i => phase i = Phase.Operations)).card = 54 ∧
    54 ≠ 60 := by
  constructor
  · decide
  · decide

/-- C1 (amended): the timeline has 84 monthly periods; the 12 periods
before construction start are Development, the 18 periods in
[construction start, operations start) are Construction, and the
remaining 54 periods are Operations (the 60-month operations window
extends past the end of the grid); every period gets exactly one of the
three tags, with no gaps and no overlaps. -/
theorem c1_timeline (i : ℕ) (hi : i < numPeriods) :
    numPeriods = 84 ∧
    ((Finset.range numPeriods).filter (fun j => phase j = Phase.Development)).card = 12 ∧
    ((Finset.range numPeriods).filter (fun j => phase j = Phase.Construction)).card = 18 ∧
    ((Finset.range numPeriods).filter (fun j => phase j = Phase.Operations)).card = 54 ∧
    (phase i = Phase.Development ↔ i < constructionStartM) ∧
    (phase i = Phase.Construction ↔ constructionStartM ≤ i ∧ i < operationsStartM) ∧
    (phase i = Phase.Operations ↔ operationsStartM ≤ i) ∧
    phase i ≠ Phase.Unset := by
  revert i
  decide

/-- C1 witness: the amended theorem applied at period 0. -/
theorem c1_timeline_witness :
    0 < numPeriods ∧
    (numPeriods = 84 ∧
      ((Finset.range numPeriods).filter (fun j => phase j = Phase.Development)).card = 12 ∧
      ((Finset.range numPeriods).filter (fun j => phase j = Phase.Construction)).card = 18 ∧
      ((Finset.range numPeriods).filter (fun j => phase j = Phase.Operations)).card = 54 ∧
      (phase 0 = Phase.Development ↔ 0 < constructionStartM) ∧
      (phase 0 = Phase.Construction ↔ constructionStartM ≤ 0 ∧ 0 < operationsStartM) ∧
      (phase 0 = Phase.Operations ↔ operationsStartM ≤ 0) ∧
      phase 0 ≠ Phase.Unset) :=
  ⟨by decide, c1_timeline 0 (by decide)⟩

/-! Claim C2: capex conservation. -/

/-- C2: for every parameter set with positive capital cost, the capex
column sums over the 84 periods to the total capital cost exactly, being
the total divided by the 18 construction periods on Construction periods
and zero elsewhere. -/
theorem c2_capex_conservation (p : Params) (i : ℕ)
    (hc : 0 < p.capexTotal) (hi : i < numPeriods) :
    (∑ j ∈ Finset.range numPeriods, capex p j) = p.capexTotal ∧
    constructionMonths = 18 ∧
    (phase i = Phase.Construction → capex p i = p.capexTotal / 18) ∧
    (phase i ≠ Phase.Construction → capex p i = 0) := by
  refine ⟨?_, constructionMonths_eq, ?_, ?_⟩
  · rw [sum_range_construction (capex p) (p.capexTotal / 18)
      (fun j hj => by rw [capex_eq, if_pos hj])
      (fun j hj => by rw [capex_eq, if_neg hj])]
    ring
  · intro hph
    rw [capex_eq, if_pos hph]
  · intro hph
    rw [capex_eq, if_neg hph]

/-- C2 witness: the theorem applied to `Pex` at period 12. -/
theorem c2_capex_conservation_witness :
    0 < Pex.capexTotal ∧ 12 < numPeriods ∧
    ((∑ j ∈ Finset.range numPeriods, capex Pex j) = Pex.capexTotal ∧
      constructionMonths = 18 ∧
      (phase 12 = Phase.Construction → capex Pex 12 = Pex.capexTotal / 18) ∧
      (phase 12 ≠ Phase.Construction → capex Pex 12 = 0)) :=
  ⟨by with_unfolding_all decide, by decide,
    c2_capex_conservation Pex 12 (by with_unfolding_all decide) (by decide)⟩

/-! Claim C3: debt sizing caps and the capital structure identity. -/

/-- C3: with nonnegative capital cost and a gearing fraction in [0, 1],
the sized debt is the minimum of the coverage-based capacity and the
gearing cap, hence at most the gearing cap; equity is the capital cost
minus debt, so debt plus equity is the capital cost and equity is
nonnegative. -/
theorem c3_debt_sizing (p : Params)
    (hc : 0 ≤ p.capexTotal) (hg0 : 0 ≤ p.maxGearing) (hg1 : p.maxGearing ≤ 1) :
    debtAmount p = min (debtCapacity p) (p.capexTotal * p.maxGearing) ∧
    debtAmount p ≤ p.capexTotal * p.maxGearing ∧
    equityAmount p = p.capexTotal - debtAmount p ∧
    debtAmount p + equityAmount p = p.capexTotal ∧
    0 ≤ equityAmount p := by
  refine ⟨rfl, min_le_right _ _, rfl, by rw [equityAmount]; ring, ?_⟩
  rw [equityAmount, sub_nonneg]
  calc debtAmount p ≤ p.capexTotal * p.maxGearing := min_le_right _ _
    _ ≤ p.capexTotal * 1 := mul_le_mul_of_nonneg_left hg1 hc
    _ = p.capexTotal := mul_one _

/-- C3 witness: the theorem applied to `Pex` (debt 70, equity 30). -/
theorem c3_debt_sizing_witness :
    0 ≤ Pex.capexTotal ∧ 0 ≤ Pex.maxGearing ∧ Pex.maxGearing ≤ 1 ∧
    (debtAmount Pex = min (debtCapacity Pex) (Pex.capexTotal * Pex.maxGearing) ∧
      debtAmount Pex ≤ Pex.capexTotal * Pex.maxGearing ∧
      equityAmount Pex = Pex.capexTotal - debtAmount Pex ∧
      debtAmount Pex + equityAmount Pex = Pex.capexTotal ∧
      0 ≤ equityAmount Pex) :=
  ⟨by with_unfolding_all decide, by with_unfolding_all decide,
    by with_unfolding_all decide,
    c3_debt_sizing Pex (by with_unfolding_all decide)
      (by with_unfolding_all decide) (by with_unfolding_all decide)⟩

/-! Claim C4: reporting the binding constraint. -/

/-- C4 counterexample: `P4a` is gearing-bound and `P4b` coverage-bound,
yet their `debt_sizing_results` coincide field for field, so the result
reported to callers cannot identify the binding constraint. -/
theorem c4_counterexample :
    debtSizingResults P4a = debtSizingResults P4b ∧
    specBindingConstraint P4a = BindingConstraint.gearing ∧
    specBindingConstraint P4b = BindingConstraint.coverage := by
  refine ⟨?_, ?_, ?_⟩ <;> with_unfolding_all decide

/-- C4 (amended): for every parameter set the sizing result picks the
debt amount as the minimum of the coverage capacity and the gearing cap
silently: the result carries only the eight numeric aggregates, no
binding-constraint indicator, and parameter sets bound by different
constraints (`P4a`, `P4b`) can produce identical results, so the binding
constraint is not recoverable from the result. -/
theorem c4_min_silent (p : Params) :
    (debtSizingResults p).debtAmount = min (debtCapacity p) (maxDebtByGearing p) ∧
    debtSizingResults P4a = debtSizingResults P4b ∧
    specBindingConstraint P4a ≠ specBindingConstraint P4b :=
  ⟨rfl, by with_unfolding_all decide, by with_unfolding_all decide⟩

/-! Claim C5: the debt schedule's span. -/

/-- Each schedule row records the period index it was built from. -/
theorem debtScheduleStep_date (p : Params) (i : ℕ) (bal : ℚ) (ps : Bool) :
    (debtScheduleStep p i bal ps).1.date = i := by
  rw [debtScheduleStep]
  split <;> rfl

/-- The schedule loop's rows carry exactly the period indices it was given. -/
theorem debtScheduleGo_map_date (p : Params) :
    ∀ (l : List ℕ) (bal : ℚ) (ps : Bool),
      (debtScheduleGo p l bal ps).map DebtRow.date = l := by
  intro l
  induction l with
  | nil => intro bal ps; rfl
  | cons i rest ih =>
    intro bal ps
    rw [debtScheduleGo, List.map_cons, debtScheduleStep_date, ih]

/-- C5 counterexample: on `Pex` (debt 70, term 10 years) the schedule's
last row is period 83, the end of the 84-period grid, not the later of
operations end (month 90) and debt maturity (month 150) that the claim
requires. -/
theorem c5_counterexample :
    0 < debtAmount Pex ∧
    (debtSchedule Pex).getLast?.map DebtRow.date = some 83 ∧
    max operationsEndM (operationsStartM + Pex.debtTermYears * 12) = 150 ∧
    (83 : ℕ) ≠ 150 := by
  refine ⟨?_, ?_, ?_, ?_⟩ <;> with_unfolding_all decide

/-- C5 (amended): when the sized debt is positive the schedule is the
ordered run of monthly periods from the first Construction period
(month 12) through the last period of the 84-month grid (month 83),
one row per month. -/
theorem c5_schedule_span (p : Params) (h : 0 < debtAmount p) :
    (debtSchedule p).map DebtRow.date
        = List.range' constructionStartM (numPeriods - constructionStartM) ∧
    (debtSchedule p).length = numPeriods - constructionStartM ∧
    (debtSchedule p).head?.map DebtRow.date = some constructionStartM ∧
    (debtSchedule p).getLast?.map DebtRow.date = some (numPeriods - 1) := by
  have hmap : (debtSchedule p).map DebtRow.date
      = (List.range numPeriods).drop constructionStartIdx := by
    rw [debtSchedule, if_neg (not_le.mpr h), debtScheduleGo_map_date]
  have hdrop : (List.range numPeriods).drop constructionStartIdx
      = List.range' constructionStartM (numPeriods - constructionStartM) := by decide
  refine ⟨hmap.trans hdrop, ?_, ?_, ?_⟩
  · have hlen := congrArg List.length (hmap.trans hdrop)
    rw [List.length_map] at hlen
    rw [hlen, List.length_range']
  · have hh := congrArg List.head? (hmap.trans hdrop)
    rw [List.head?_map] at hh
    rw [hh]
    decide
  · have hl := congrArg List.getLast? (hmap.trans hdrop)
    rw [List.getLast?_map] at hl
    rw [hl]
    decide

/-- C5 witness: the amended theorem applied to `Pex`. -/
theorem c5_schedule_span_witness :
    0 < debtAmount Pex ∧
    ((debtSchedule Pex).map DebtRow.date
        = List.range' constructionStartM (numPeriods - constructionStartM) ∧
      (debtSchedule Pex).length = numPeriods - constructionStartM ∧
      (debtSchedule Pex).head?.map DebtRow.date = some constructionStartM ∧
      (debtSchedule Pex).getLast?.map DebtRow.date = some (numPeriods - 1)) :=
  ⟨by with_unfolding_all decide,
    c5_schedule_span Pex (by with_unfolding_all decide)⟩

/-! Claim C6: the balance identity and nonnegativity of the schedule. -/

/-- Drawdowns are nonnegative whenever the sized debt is. -/
theorem debtDrawdown_nonneg (p : Params) (h : 0 ≤ debtAmount p) (i : ℕ) :
    0 ≤ debtDrawdown p i := by
  rw [debtDrawdown]
  split
  case isTrue hcond =>
    have hcapex : 0 < p.capexTotal := by
      have := hcond.2
      rwa [totalConstructionCapex_eq] at this
    apply mul_nonneg h
    apply div_nonneg _ hcond.2.le
    rw [capex_eq, if_pos hcond.1]
    exact div_nonneg hcapex.le (by norm_num)
  case isFalse => exact le_rfl

/-- One loop iteration: the produced row satisfies the balance identity,
and from a nonnegative balance and drawdown both the row's ending balance
and the threaded balance stay nonnegative (and agree). -/
theorem debtScheduleStep_spec (p : Params) (i : ℕ) (bal : ℚ) (ps : Bool)
    (hd : 0 ≤ debtDrawdown p i) (hbal : 0 ≤ bal) :
    ((debtScheduleStep p i bal ps).1.endingBalance
        = (debtScheduleStep p i bal ps).1.beginningBalance
          + (debtScheduleStep p i bal ps).1.drawdown
          - (debtScheduleStep p i bal ps).1.principalPayment ∧
      0 ≤ (debtScheduleStep p i bal ps).1.endingBalance) ∧
    (debtScheduleStep p i bal ps).2.1 = (debtScheduleStep p i bal ps).1.endingBalance := by
  rw [debtScheduleStep]
  split
  case isTrue hcond =>
    refine ⟨⟨rfl, ?_⟩, rfl⟩
    simp only
    rw [sub_nonneg]
    exact min_le_right _ _
  case isFalse hcond =>
    refine ⟨⟨by simp only; ring, ?_⟩, rfl⟩
    simp only
    exact add_nonneg hbal hd

/-- Loop invariant: starting from a nonnegative balance, every emitted row
satisfies the balance identity with a nonnegative ending balance. -/
theorem debtScheduleGo_spec (p : Params) (hd : ∀ i, 0 ≤ debtDrawdown p i) :
    ∀ (l : List ℕ) (bal : ℚ) (ps : Bool), 0 ≤ bal →
      ∀ row ∈ debtScheduleGo p l bal ps,
        row.endingBalance = row.beginningBalance + row.drawdown - row.principalPayment ∧
        0 ≤ row.endingBalance := by
  intro l
  induction l with
  | nil =>
    intro bal ps hbal row hrow
    simp [debtScheduleGo] at hrow
  | cons i rest ih =>
    intro bal ps hbal row hrow
    rw [debtScheduleGo, List.mem_cons] at hrow
    have hstep := debtScheduleStep_spec p i bal ps (hd i) hbal
    rcases hrow with hrow | hrow
    · rw [hrow]
      exact hstep.1
    · have hnext : 0 ≤ (debtScheduleStep p i bal ps).2.1 := by
        rw [hstep.2]
        exact hstep.1.2
      exact ih _ _ hnext row hrow

/-- C6: when the sized debt is positive, every row of the debt schedule
satisfies `ending_balance = beginning_balance + drawdown -
principal_payment` and has a nonnegative ending balance. -/
theorem c6_schedule_invariant (p : Params) (row : DebtRow)
    (h : 0 < debtAmount p) (hrow : row ∈ debtSchedule p) :
    row.endingBalance = row.beginningBalance + row.drawdown - row.principalPayment ∧
    0 ≤ row.endingBalance := by
  rw [debtSchedule, if_neg (not_le.mpr h)] at hrow
  exact debtScheduleGo_spec p (debtDrawdown_nonneg p h.le) _ 0 false le_rfl row hrow

/-- C6 witness: the theorem applied to `Pex` and the schedule's first row. -/
theorem c6_schedule_invariant_witness :
    0 < debtAmount Pex ∧
    (⟨12, 13, Phase.Construction, 0, 35 / 9, 0, 0, 0, 35 / 9⟩ : DebtRow) ∈ debtSchedule Pex ∧
    ((⟨12, 13, Phase.Construction, 0, 35 / 9, 0, 0, 0, 35 / 9⟩ : DebtRow).endingBalance
        = (⟨12, 13, Phase.Construction, 0, 35 / 9, 0, 0, 0, 35 / 9⟩ : DebtRow).beginningBalance
          + (⟨12, 13, Phase.Construction, 0, 35 / 9, 0, 0, 0, 35 / 9⟩ : DebtRow).drawdown
          - (⟨12, 13, Phase.Construction, 0, 35 / 9, 0, 0, 0, 35 / 9⟩ : DebtRow).principalPayment ∧
      0 ≤ (⟨12, 13, Phase.Construction, 0, 35 / 9, 0, 0, 0, 35 / 9⟩ : DebtRow).endingBalance) :=
  ⟨by with_unfolding_all decide, by with_unfolding_all decide,
    c6_schedule_invariant Pex _ (by with_unfolding_all decide)
      (by with_unfolding_all decide)⟩

/-! Claim C7: the zero-debt degenerate case. -/

/-- C7: when the sized debt is zero the debt schedule is empty and the
debt-service column is zero on every period; both computations are total,
no error path exists. -/
theorem c7_zero_debt (p : Params) (i : ℕ)
    (h : debtAmount p = 0) (hi : i < numPeriods) :
    debtSchedule p = [] ∧ debtService p i = 0 := by
  constructor
  · rw [debtSchedule, if_pos (le_of_eq h)]
  · rw [debtService, if_neg]
    rw [h]
    exact lt_irrefl 0

/-- C7 witness: the theorem applied to `P7` (gearing cap 0) at period 40. -/
theorem c7_zero_debt_witness :
    debtAmount P7 = 0 ∧ 40 < numPeriods ∧
    (debtSchedule P7 = [] ∧ debtService P7 40 = 0) :=
  ⟨by with_unfolding_all decide, by decide,
    c7_zero_debt P7 40 (by with_unfolding_all decide) (by decide)⟩

/-! Claim C8: the IRR solver's undefined result and convergence guarantee. -/

/-- The Newton-Raphson loop returns a rate only with its net present value
inside tolerance: the sole returning exit checks exactly that. -/
theorem irrGo_some_npv (cashflows : List ℚ) :
    ∀ (n : ℕ) (rate r : ℚ),
      irrGo cashflows n rate = some r → |npv cashflows r| < npvTolerance := by
  intro n
  induction n with
  | zero =>
    intro rate r h
    simp [irrGo] at h
  | succ k ih =>
    intro rate r h
    rw [irrGo] at h
    by_cases h1 : |npv cashflows rate| < npvTolerance
    · rw [if_pos h1] at h
      injection h with h2
      rw [← h2]
      exact h1
    · rw [if_neg h1] at h
      by_cases h2 : |npvDeriv cashflows rate| < npvTolerance
      · rw [if_pos h2] at h
        exact absurd h (by simp)
      · rw [if_neg h2] at h
        exact ih _ r h

/-- C8: a cashflow sequence without both a strictly negative and a
strictly positive entry makes the solver return the distinct undefined
result (`none`, no exception), and whenever the solver returns a rate `r`
the net present value at `r` is within the 1e-6 tolerance. -/
theorem c8_irr_solver (cashflows : List ℚ) (r : ℚ) :
    (¬((∃ cf ∈ cashflows, cf < 0) ∧ (∃ cf ∈ cashflows, 0 < cf)) →
      calculateIrr cashflows = none) ∧
    (calculateIrr cashflows = some r → |npv cashflows r| < 1 / 1000000) := by
  constructor
  · intro hno
    rw [calculateIrr]
    by_cases h0 : cashflows = [] ∨ ∀ cf ∈ cashflows, cf = 0
    · rw [if_pos h0]
    · rw [if_neg h0, if_neg hno]
  · intro hsome
    rw [calculateIrr] at hsome
    split at hsome
    · exact absurd hsome (by simp)
    · split at hsome
      · exact irrGo_some_npv cashflows 100 (1 / 10) r hsome
      · exact absurd hsome (by simp)

/-- C8 witness: the all-positive sequence `[1, 2]` gets the undefined
result, and on `[-1, 1.1]` (a one-period investment returning 10%) the
solver returns the rate 1/10, whose net present value is within
tolerance. -/
theorem c8_irr_solver_witness :
    calculateIrr [(1 : ℚ), 2] = none ∧
    |npv [(-1 : ℚ), 11 / 10] (1 / 10)| < 1 / 1000000 :=
  ⟨(c8_irr_solver [(1 : ℚ), 2] 0).1 (by with_unfolding_all decide),
    (c8_irr_solver [(-1 : ℚ), 11 / 10] (1 / 10)).2
      (by with_unfolding_all decide)⟩

/-! Claim C9: determinism of the pipeline. -/

/-- C9: the pipeline is a function of its parameters alone — two runs on
equal parameter records produce equal outputs, structure by structure
(period table, sizing result, debt schedule, equity analysis).  In this
embedding the five passes are pure, mirroring the absence of I/O,
randomness and shared mutable state in the source's computation. -/
theorem c9_deterministic (p q : Params) (h : p = q) :
    compute p = compute q ∧
    (compute p).periodTable = (compute q).periodTable ∧
    (compute p).sizing = (compute q).sizing ∧
    (compute p).schedule = (compute q).schedule ∧
    (compute p).equity = (compute q).equity := by
  subst h
  exact ⟨rfl, rfl, rfl, rfl, rfl⟩

/-- C9 witness: the theorem applied to two runs on `Pex`. -/
theorem c9_deterministic_witness :
    compute Pex = compute Pex ∧
    (compute Pex).periodTable = (compute Pex).periodTable ∧
    (compute Pex).sizing = (compute Pex).sizing ∧
    (compute Pex).schedule = (compute Pex).schedule ∧
    (compute Pex).equity = (compute Pex).equity :=
  c9_deterministic Pex Pex rfl

/-! Claim C10: the financing allocation sums to the sized amounts. -/

/-- C10: with positive capital cost, the debt drawdowns over all periods
sum to the sized debt amount and the equity contributions to the equity
amount; the per-period capex fractions of total construction capex sum to
1, and both financing columns vanish outside Construction periods. -/
theorem c10_financing_allocation (p : Params) (i : ℕ)
    (hc : 0 < p.capexTotal) (hi : i < numPeriods) :
    (∑ j ∈ Finset.range numPeriods, debtDrawdown p j) = debtAmount p ∧
    (∑ j ∈ Finset.range numPeriods, equityContribution p j) = equityAmount p ∧
    (∑ j ∈ (Finset.range numPeriods).filter (fun j => phase j = Phase.Construction),
        capex p j / totalConstructionCapex p) = 1 ∧
    (phase i ≠ Phase.Construction → debtDrawdown p i = 0 ∧ equityContribution p i = 0) := by
  have htot : totalConstructionCapex p = p.capexTotal := totalConstructionCapex_eq p
  have htotpos : 0 < totalConstructionCapex p := by rwa [htot]
  have hne : p.capexTotal ≠ 0 := ne_of_gt hc
  have hfrac : ∀ j, phase j = Phase.Construction →
      capex p j / totalConstructionCapex p = 1 / 18 := by
    intro j hj
    rw [capex_eq, if_pos hj, htot, div_div, mul_comm (18 : ℚ) p.capexTotal,
      ← div_div, div_self hne]
  refine ⟨?_, ?_, ?_, ?_⟩
  · rw [sum_range_construction (debtDrawdown p) (debtAmount p * (1 / 18))
      (fun j hj => by rw [debtDrawdown, if_pos ⟨hj, htotpos⟩, hfrac j hj])
      (fun j hj => by rw [debtDrawdown, if_neg (fun hcond => hj hcond.1)])]
    ring
  · rw [sum_range_construction (equityContribution p) (equityAmount p * (1 / 18))
      (fun j hj => by rw [equityContribution, if_pos ⟨hj, htotpos⟩, hfrac j hj])
      (fun j hj => by rw [equityContribution, if_neg (fun hcond => hj hcond.1)])]
    ring
  · rw [sum_filter_construction (fun j => capex p j / totalConstructionCapex p)
      (1 / 18) hfrac]
    norm_num
  · intro hph
    constructor
    · rw [debtDrawdown, if_neg (fun hcond => hph hcond.1)]
    · rw [equityContribution, if_neg (fun hcond => hph hcond.1)]

/-- C10 witness: the theorem applied to `Pex` at period 0 (a Development
period, so both financing columns vanish there). -/
theorem c10_financing_allocation_witness :
    0 < Pex.capexTotal ∧ 0 < numPeriods ∧
    ((∑ j ∈ Finset.range numPeriods, debtDrawdown Pex j) = debtAmount Pex ∧
      (∑ j ∈ Finset.range numPeriods, equityContribution Pex j) = equityAmount Pex ∧
      (∑ j ∈ (Finset.range numPeriods).filter (fun j => phase j = Phase.Construction),
          capex Pex j / totalConstructionCapex Pex) = 1 ∧
      (phase 0 ≠ Phase.Construction →
        debtDrawdown Pex 0 = 0 ∧ equityContribution Pex 0 = 0)) :=
  ⟨by with_unfolding_all decide, by decide,
    c10_financing_allocation Pex 0 (by with_unfolding_all decide) (by decide)⟩
